import Mathlib

/-!
Verification of the booking conflict-detection logic of a library / room /
board-game booking backend (Express + PostgreSQL).  The definitions below are
a shallow embedding of the route handlers in `Backend/routes/student.js`
(room requests) and `Backend/routes/games.js` (game requests).  Times of day
are modelled as natural numbers (an `HH:MM` string corresponds to the minute
value `60*HH + MM`), calendar dates and database identifiers as natural
numbers, and the `room_requests` / `game_requests` tables as lists of rows.
-/

namespace Booking

/-- Request status values stored in the `status` column of the
`room_requests` and `game_requests` tables. -/
inductive ReqStatus
  | pending
  | approved
  | rejected
  | cancelled
deriving DecidableEq, Repr

/-- The three-clause overlap condition of the SQL conflict queries in
`student.js` (`POST /api/rooms/request` and `PUT /api/rooms/requests/:id`):
`(start_time <= $3 AND end_time > $3) OR (start_time < $4 AND end_time >= $4)
OR (start_time >= $3 AND end_time <= $4)`, where `start_time` / `end_time`
are an existing row's interval and `$3` / `$4` are the candidate's start and
end. -/
def overlapClause (row_start row_end cand_start cand_end : Nat) : Bool :=
  (decide (row_start ≤ cand_start) && decide (row_end > cand_start)) ||
  (decide (row_start < cand_end) && decide (row_end ≥ cand_end)) ||
  (decide (row_start ≥ cand_start) && decide (row_end ≤ cand_end))

/-- The standard half-open interval intersection test named by the spec:
`[s1,e1)` and `[s2,e2)` intersect iff `s1 < e2 AND s2 < e1`. -/
def stdOverlap (s1 e1 s2 e2 : Nat) : Bool :=
  decide (s1 < e2) && decide (s2 < e1)

/-- A row of the `rooms` table (`_id`, `room_name`, `capacity`, `location`). -/
structure Room where
  _id : Nat
  room_name : String
  capacity : Nat
  location : String
deriving DecidableEq, Repr

/-- A row of the `room_requests` table: `_id SERIAL PRIMARY KEY`, requester,
room, calendar date, half-open time interval, status, processing staff member
(null until processed) and last-update timestamp. -/
structure RoomRequest where
  _id : Nat
  member_id : Nat
  room_id : Nat
  date : Nat
  start_time : Nat
  end_time : Nat
  status : ReqStatus
  staff_id : Option Nat
  updated_at : Nat
deriving DecidableEq, Repr

/-- Database state seen by the room-request routes: the `rooms` and
`room_requests` tables, the next value of the `_id` SERIAL sequence, and a
logical clock standing for `CURRENT_TIMESTAMP`. -/
structure DBState where
  rooms : List Room
  room_requests : List RoomRequest
  next_id : Nat
  now : Nat
deriving DecidableEq, Repr

/-- Conflict query of `POST /api/rooms/request`: rows of `room_requests` with
the same room and date, status `approved`, whose interval satisfies the
three-clause overlap condition against the candidate interval. -/
def createConflictQuery (reqs : List RoomRequest) (roomId date startTime endTime : Nat) :
    List RoomRequest :=
  reqs.filter fun r =>
    r.room_id == roomId && r.date == date && r.status == ReqStatus.approved &&
      overlapClause r.start_time r.end_time startTime endTime

/-- Conflict query of `PUT /api/rooms/requests/:id`: same as the creation
conflict query plus the self-exclusion condition `_id != $5`. -/
def approveConflictQuery (reqs : List RoomRequest)
    (roomId date startTime endTime requestId : Nat) : List RoomRequest :=
  reqs.filter fun r =>
    r.room_id == roomId && r.date == date && r.status == ReqStatus.approved &&
      r._id != requestId &&
      overlapClause r.start_time r.end_time startTime endTime

/-- The `HH:MM` regular expression of the `startTime` / `endTime` validators
of `POST /api/rooms/request` accepts exactly the clock times 00:00–23:59,
i.e. the minute values `t < 1440`.  The validators check only the format of
each field; no comparison between `startTime` and `endTime` is performed. -/
def validTime (t : Nat) : Bool := decide (t < 1440)

/-- Outcome of `POST /api/rooms/request`: 400 validation errors, 404 room not
found, the 400 `Room is already booked for this time slot` rejection, or the
201 response carrying the inserted row. -/
inductive CreateResult
  | validationError
  | roomNotFound
  | conflictError
  | created (req : RoomRequest)
deriving DecidableEq, Repr

/-- Handler `POST /api/rooms/request`: validate the field formats, check the room
exists, run the conflict query against approved requests for the same room
and date, and only then insert a new `pending` row. -/
def postRoomRequest (st : DBState) (userId roomId date startTime endTime : Nat) :
    CreateResult × DBState :=
  if !(validTime startTime && validTime endTime) then
    (CreateResult.validationError, st)
  else if (st.rooms.filter (fun r => r._id == roomId)).isEmpty then
    (CreateResult.roomNotFound, st)
  else if !(createConflictQuery st.room_requests roomId date startTime endTime).isEmpty then
    (CreateResult.conflictError, st)
  else
    let newReq : RoomRequest :=
      { _id := st.next_id, member_id := userId, room_id := roomId, date := date,
        start_time := startTime, end_time := endTime, status := ReqStatus.pending,
        staff_id := none, updated_at := st.now }
    (CreateResult.created newReq,
      { st with room_requests := st.room_requests ++ [newReq],
                next_id := st.next_id + 1, now := st.now + 1 })

/-- Outcome of `PUT /api/rooms/requests/:id`: 400 invalid status, 404 request
not found, the 400 `Conflict detected` rejection, or the 200 response carrying
the updated row. -/
inductive UpdateResult
  | invalidStatus
  | notFound
  | conflictError
  | updated (req : RoomRequest)
deriving DecidableEq, Repr

/-- Effect on one row of `UPDATE room_requests SET status = $1, staff_id = $2,
updated_at = CURRENT_TIMESTAMP`. -/
def setStatusRow (r : RoomRequest) (status : ReqStatus) (staffId now : Nat) :
    RoomRequest :=
  { r with status := status, staff_id := some staffId, updated_at := now }

/-- The final `UPDATE room_requests ... WHERE _id = $3 RETURNING *` statement
of `PUT /api/rooms/requests/:id`, shared by all accepted status values; 404
when no row matches. -/
def runUpdate (st : DBState) (staffId requestId : Nat) (status : ReqStatus) :
    UpdateResult × DBState :=
  match (st.room_requests.filter (fun r => r._id == requestId)).head? with
  | none => (UpdateResult.notFound, st)
  | some r =>
      (UpdateResult.updated (setStatusRow r status staffId st.now),
        { st with
            room_requests := st.room_requests.map
              (fun q => if q._id == requestId then setStatusRow q status staffId st.now else q),
            now := st.now + 1 })

/-- Handler `PUT /api/rooms/requests/:id`: the status whitelist admits only
`approved`, `rejected` and `cancelled`; when approving, the target row is
fetched and the conflict query is re-run with self-exclusion before the
update statement runs. -/
def putRoomRequestStatus (st : DBState) (staffId requestId : Nat) (status : ReqStatus) :
    UpdateResult × DBState :=
  if !(status == ReqStatus.approved || status == ReqStatus.rejected ||
        status == ReqStatus.cancelled) then
    (UpdateResult.invalidStatus, st)
  else if status == ReqStatus.approved then
    match st.room_requests.find? (fun r => r._id == requestId) with
    | none => (UpdateResult.notFound, st)
    | some reqData =>
        if !(approveConflictQuery st.room_requests reqData.room_id reqData.date
              reqData.start_time reqData.end_time requestId).isEmpty then
          (UpdateResult.conflictError, st)
        else
          runUpdate st staffId requestId status
  else
    runUpdate st staffId requestId status

/-- Client-visible operations on the room-request state: creating a request
and processing a request's status (approval, rejection, cancellation and any
other attempted status, which the whitelist rejects). -/
inductive Op
  | create (userId roomId date startTime endTime : Nat)
  | setStatus (staffId requestId : Nat) (status : ReqStatus)
deriving DecidableEq, Repr

/-- State transition of one operation. -/
def step (st : DBState) (op : Op) : DBState :=
  match op with
  | Op.create u r d s e => (postRoomRequest st u r d s e).2
  | Op.setStatus a i s => (putRoomRequestStatus st a i s).2

/-- State after a sequence of operations. -/
def run (st : DBState) (ops : List Op) : DBState := ops.foldl step st

/-- Demonstration database: one room (id 1), no requests yet. -/
def demoSt0 : DBState :=
  { rooms := [{ _id := 1, room_name := "Room 1", capacity := 4, location := "L1" }],
    room_requests := [], next_id := 1, now := 0 }

/-- State after creating request A: room 1, date 2024-06-01 (written
`20240601`), 10:00–11:00 (minutes 600–660), by member 7. -/
def demoStA : DBState := (postRoomRequest demoSt0 7 1 20240601 600 660).2

/-- State after additionally approving request A (id 1) as staff member 99. -/
def demoStAapproved : DBState :=
  (putRoomRequestStatus demoStA 99 1 ReqStatus.approved).2

/-- State after creating request B (room 1, same date, 10:30–10:45, member 8)
while A is still pending. -/
def demoStAB : DBState := (postRoomRequest demoStA 8 1 20240601 630 645).2

/-- State after approving request A (id 1) with B already created pending. -/
def demoStABapproved : DBState :=
  (putRoomRequestStatus demoStAB 99 1 ReqStatus.approved).2

/-- A row of the `game_requests` table, same shape as a room request with the
room reference replaced by a board-game reference. -/
structure GameRequest where
  _id : Nat
  member_id : Nat
  game_id : Nat
  date : Nat
  start_time : Nat
  end_time : Nat
  status : ReqStatus
  staff_id : Option Nat
  updated_at : Nat
deriving DecidableEq, Repr

/-- Database state seen by the game-request routes. -/
structure GameDBState where
  game_requests : List GameRequest
  next_id : Nat
  now : Nat
deriving DecidableEq, Repr

/-- Outcome of `POST /api/games/request`: the 400 `All fields are required`
error or the 201 response with the inserted row. -/
inductive GameCreateResult
  | missingFields
  | created (req : GameRequest)
deriving DecidableEq, Repr

/-- Handler `POST /api/games/request` (`games.js`): it only checks that all
fields are present (`!member_id || !game_id || !date || !start_time ||
!end_time`, modelled by `Option`) and then inserts a `pending` row directly.
No conflict query is issued. -/
def postGameRequest (st : GameDBState)
    (member_id game_id date start_time end_time : Option Nat) :
    GameCreateResult × GameDBState :=
  match member_id, game_id, date, start_time, end_time with
  | some m, some g, some d, some s, some e =>
      let newReq : GameRequest :=
        { _id := st.next_id, member_id := m, game_id := g, date := d,
          start_time := s, end_time := e, status := ReqStatus.pending,
          staff_id := none, updated_at := st.now }
      (GameCreateResult.created newReq,
        { st with game_requests := st.game_requests ++ [newReq],
                  next_id := st.next_id + 1, now := st.now + 1 })
  | _, _, _, _, _ => (GameCreateResult.missingFields, st)

/-- The `validStatuses` whitelist of `PUT /api/games/requests/:id`; unlike the
room-request whitelist it also admits `pending`. -/
def validStatuses : List ReqStatus :=
  [ReqStatus.approved, ReqStatus.rejected, ReqStatus.cancelled, ReqStatus.pending]

/-- Outcome of `PUT /api/games/requests/:id`.  A `conflictError` constructor
is provided so the absence of any conflict rejection in the handler can be
stated; the handler never produces it. -/
inductive GameUpdateResult
  | invalidStatus
  | notFound
  | conflictError
  | updated (req : GameRequest)
deriving DecidableEq, Repr

/-- Effect on one row of `UPDATE game_requests SET status = $1,
staff_id = $2, updated_at = CURRENT_TIMESTAMP`. -/
def setGameStatusRow (r : GameRequest) (status : ReqStatus) (staffId now : Nat) :
    GameRequest :=
  { r with status := status, staff_id := some staffId, updated_at := now }

/-- Handler `PUT /api/games/requests/:id` (`games.js`): whitelist check, then the
update statement runs directly — there is no fetch of the target row and no
conflict query, for any status including `approved`. -/
def putGameRequestStatus (st : GameDBState) (staffId requestId : Nat)
    (status : ReqStatus) : GameUpdateResult × GameDBState :=
  if !(validStatuses.contains status) then
    (GameUpdateResult.invalidStatus, st)
  else
    match (st.game_requests.filter (fun r => r._id == requestId)).head? with
    | none => (GameUpdateResult.notFound, st)
    | some r =>
        (GameUpdateResult.updated (setGameStatusRow r status staffId st.now),
          { st with
              game_requests := st.game_requests.map
                (fun q => if q._id == requestId then setGameStatusRow q status staffId st.now else q),
              now := st.now + 1 })

/-- Demonstration game database: one approved request for game 1 on date
2024-06-01 at 10:00–11:00 (id 1). -/
def demoGameSt : GameDBState :=
  { game_requests := [{ _id := 1, member_id := 7, game_id := 1, date := 20240601,
                        start_time := 600, end_time := 660,
                        status := ReqStatus.approved, staff_id := some 99,
                        updated_at := 0 }],
    next_id := 2, now := 1 }

/-- Core invariant of the spec: for any two distinct approved requests on the
same room and date, the half-open intervals `[start_time, end_time)` are
disjoint as sets.  Rows are identified by the `_id` primary key. -/
def ApprovedDisjoint (reqs : List RoomRequest) : Prop :=
  ∀ r1 ∈ reqs, ∀ r2 ∈ reqs,
    r1.status = ReqStatus.approved → r2.status = ReqStatus.approved →
    r1.room_id = r2.room_id → r1.date = r2.date → r1._id ≠ r2._id →
    Set.Ico r1.start_time r1.end_time ∩ Set.Ico r2.start_time r2.end_time = ∅

/-- Well-formedness of a database state, as guaranteed by the `SERIAL PRIMARY
KEY` column `_id`: row ids are pairwise distinct and below the next sequence
value. -/
def IdsOk (st : DBState) : Prop :=
  (st.room_requests.map (fun r => r._id)).Nodup ∧
    ∀ r ∈ st.room_requests, r._id < st.next_id

-- ---------------------------------------------------------------------------
-- Theorems
-- ---------------------------------------------------------------------------

theorem overlapClause_eq_std (s1 e1 s2 e2 : Nat) (h1 : s1 < e1) (h2 : s2 < e2) :
    overlapClause s2 e2 s1 e1 = stdOverlap s1 e1 s2 e2 := by
  rw [Bool.eq_iff_iff]
  simp only [overlapClause, stdOverlap, Bool.or_eq_true, Bool.and_eq_true,
    decide_eq_true_eq]
  omega

/-- If the SQL overlap clause is false for an existing row `[s2,e2)` against a
candidate `[s1,e1)`, the two half-open intervals are disjoint as sets. -/
theorem overlapClause_false_disjoint (s1 e1 s2 e2 : Nat)
    (h : overlapClause s2 e2 s1 e1 = false) :
    Set.Ico s1 e1 ∩ Set.Ico s2 e2 = ∅ := by
  rw [Set.eq_empty_iff_forall_not_mem]
  intro x hx
  rcases hx with ⟨⟨hx1, hx2⟩, ⟨hx3, hx4⟩⟩
  have : overlapClause s2 e2 s1 e1 = true := by
    simp only [overlapClause, Bool.or_eq_true, Bool.and_eq_true, decide_eq_true_eq]
    omega
  rw [h] at this
  exact Bool.false_ne_true this

/-- C4: for intervals with start strictly before end, the three-clause overlap
condition used by the SQL conflict queries holds iff the standard half-open
intersection test `s1 < e2 AND s2 < e1` holds. -/
theorem overlap_three_clause_iff_half_open (s1 e1 s2 e2 : Nat)
    (h1 : s1 < e1) (h2 : s2 < e2) :
    overlapClause s2 e2 s1 e1 = true ↔ (s1 < e2 ∧ s2 < e1) := by
  rw [overlapClause_eq_std s1 e1 s2 e2 h1 h2]
  simp [stdOverlap]

/-- Witness for C4 at the spec's boundary case: candidate 10:00–11:00
(600–660) against existing 11:00–12:00 (660–720); the equivalence yields no
conflict because the intervals only touch. -/
theorem overlap_three_clause_iff_half_open_witness :
    (600 < 660 ∧ 660 < 720) ∧
      (overlapClause 660 720 600 660 = true ↔ (600 < 720 ∧ 660 < 660)) :=
  ⟨by decide, overlap_three_clause_iff_half_open 600 660 660 720 (by decide) (by decide)⟩

/-- C5: the implemented overlap predicate is symmetric under swapping the
candidate and the existing interval, for intervals with start strictly before
end. -/
theorem overlap_clause_symm (s1 e1 s2 e2 : Nat) (h1 : s1 < e1) (h2 : s2 < e2) :
    overlapClause s2 e2 s1 e1 = overlapClause s1 e1 s2 e2 := by
  rw [overlapClause_eq_std s1 e1 s2 e2 h1 h2, overlapClause_eq_std s2 e2 s1 e1 h2 h1]
  rw [Bool.eq_iff_iff]
  simp only [stdOverlap, Bool.and_eq_true, decide_eq_true_eq]
  omega

/-- Witness for C5 at the concrete intervals 10:00–12:00 and 09:00–13:00. -/
theorem overlap_clause_symm_witness :
    (600 < 720 ∧ 540 < 780) ∧
      overlapClause 540 780 600 720 = overlapClause 600 720 540 780 :=
  ⟨by decide, overlap_clause_symm 600 720 540 780 (by decide) (by decide)⟩

/-- C3 counterexample: in the claimed order of operations, after request A for
room 1 on 2024-06-01, 10:00–11:00 is created and approved, creating the
overlapping request B (10:30–10:45) does not succeed as pending; it is
rejected at creation time with the `Room is already booked` conflict error,
because the creation-time check runs against approved requests and A is
approved by then. -/
theorem create_after_approval_rejected :
    (postRoomRequest demoSt0 7 1 20240601 600 660).1 = CreateResult.created
      { _id := 1, member_id := 7, room_id := 1, date := 20240601,
        start_time := 600, end_time := 660, status := ReqStatus.pending,
        staff_id := none, updated_at := 0 } ∧
    (putRoomRequestStatus demoStA 99 1 ReqStatus.approved).1 = UpdateResult.updated
      { _id := 1, member_id := 7, room_id := 1, date := 20240601,
        start_time := 600, end_time := 660, status := ReqStatus.approved,
        staff_id := some 99, updated_at := 1 } ∧
    postRoomRequest demoStAapproved 8 1 20240601 630 645 =
      (CreateResult.conflictError, demoStAapproved) := by
  decide

/-- C3 amended: the scenario's conflict-at-approval outcome occurs when B is
created before A is approved.  Create A (pending), create B (pending),
approve A (approved); then the attempt to approve B fails with the
`Conflict detected` error and the state is unchanged, so B remains pending. -/
theorem end_to_end_scenario :
    (postRoomRequest demoSt0 7 1 20240601 600 660).1 = CreateResult.created
      { _id := 1, member_id := 7, room_id := 1, date := 20240601,
        start_time := 600, end_time := 660, status := ReqStatus.pending,
        staff_id := none, updated_at := 0 } ∧
    (postRoomRequest demoStA 8 1 20240601 630 645).1 = CreateResult.created
      { _id := 2, member_id := 8, room_id := 1, date := 20240601,
        start_time := 630, end_time := 645, status := ReqStatus.pending,
        staff_id := none, updated_at := 1 } ∧
    (putRoomRequestStatus demoStAB 99 1 ReqStatus.approved).1 = UpdateResult.updated
      { _id := 1, member_id := 7, room_id := 1, date := 20240601,
        start_time := 600, end_time := 660, status := ReqStatus.approved,
        staff_id := some 99, updated_at := 2 } ∧
    putRoomRequestStatus demoStABapproved 99 2 ReqStatus.approved =
      (UpdateResult.conflictError, demoStABapproved) := by
  decide

/-- C2 counterexample: with an approved request for game 1 on 2024-06-01 at
10:00–11:00 in the database, creating an overlapping request (10:30–10:45,
same game and date) is not rejected — it succeeds as pending — and its
subsequent transition to `approved` also succeeds with no conflict check. -/
theorem game_routes_skip_conflict_check :
    (postGameRequest demoGameSt (some 8) (some 1) (some 20240601) (some 630)
        (some 645)).1 = GameCreateResult.created
      { _id := 2, member_id := 8, game_id := 1, date := 20240601,
        start_time := 630, end_time := 645, status := ReqStatus.pending,
        staff_id := none, updated_at := 1 } ∧
    (putGameRequestStatus
        (postGameRequest demoGameSt (some 8) (some 1) (some 20240601) (some 630)
          (some 645)).2 99 2 ReqStatus.approved).1 = GameUpdateResult.updated
      { _id := 2, member_id := 8, game_id := 1, date := 20240601,
        start_time := 630, end_time := 645, status := ReqStatus.approved,
        staff_id := some 99, updated_at := 2 } := by
  decide

/-- C2 amended: the booking conflict checker is applied only to room
reservations.  The game-request routes run no conflict query at all: creation
with all fields present always inserts a pending row, whatever approved
requests exist, and a status update never returns a conflict rejection. -/
theorem game_routes_have_no_conflict_checker :
    (∀ (st : GameDBState) (m g d s e : Nat),
      (postGameRequest st (some m) (some g) (some d) (some s) (some e)).1 =
        GameCreateResult.created
          { _id := st.next_id, member_id := m, game_id := g, date := d,
            start_time := s, end_time := e, status := ReqStatus.pending,
            staff_id := none, updated_at := st.now }) ∧
    (∀ (st : GameDBState) (staffId requestId : Nat) (status : ReqStatus),
      (putGameRequestStatus st staffId requestId status).1 ≠
        GameUpdateResult.conflictError) := by
  constructor
  · intro st m g d s e
    rfl
  · intro st staffId requestId status h
    unfold putGameRequestStatus at h
    split at h
    · exact GameUpdateResult.noConfusion h
    · split at h <;> simp_all

/-- Witness for C2 amended, instantiated on the demonstration game state. -/
theorem game_routes_have_no_conflict_checker_witness :
    (putGameRequestStatus demoGameSt 99 1 ReqStatus.approved).1 ≠
      GameUpdateResult.conflictError :=
  game_routes_have_no_conflict_checker.2 demoGameSt 99 1 ReqStatus.approved

/-- C8 counterexample: the game-request status whitelist includes `pending`,
so an update of the approved game request 1 to `pending` is accepted and its
status afterwards is `pending` — an approved request moved back to pending. -/
theorem approved_game_request_back_to_pending :
    (demoGameSt.game_requests.map (fun r => (r._id, r.status))) =
        [(1, ReqStatus.approved)] ∧
    (putGameRequestStatus demoGameSt 99 1 ReqStatus.pending).1 =
      GameUpdateResult.updated
        { _id := 1, member_id := 7, game_id := 1, date := 20240601,
          start_time := 600, end_time := 660, status := ReqStatus.pending,
          staff_id := some 99, updated_at := 1 } := by
  decide

/-- C8 amended: room-request status updates can never move any row to
`pending` — every pending row after an update was already present, pending,
before it (the whitelist admits only approved/rejected/cancelled) — whereas
the game-request route accepts `pending` and does move the approved request 1
of the demonstration state back to `pending`. -/
theorem room_requests_never_return_to_pending :
    (∀ (st : DBState) (staffId requestId : Nat) (status : ReqStatus)
        (r' : RoomRequest),
      r' ∈ (putRoomRequestStatus st staffId requestId status).2.room_requests →
      r'.status = ReqStatus.pending → r' ∈ st.room_requests) ∧
    ((putGameRequestStatus demoGameSt 99 1 ReqStatus.pending).1 =
      GameUpdateResult.updated
        { _id := 1, member_id := 7, game_id := 1, date := 20240601,
          start_time := 600, end_time := 660, status := ReqStatus.pending,
          staff_id := some 99, updated_at := 1 }) := by
  constructor
  · intro st staffId requestId status r' hmem hpend
    unfold putRoomRequestStatus at hmem
    by_cases hw : (status == ReqStatus.approved || status == ReqStatus.rejected ||
        status == ReqStatus.cancelled) = true
    · have hnp : status ≠ ReqStatus.pending := by
        intro he
        subst he
        simp at hw
      rw [if_neg (by simp [hw])] at hmem
      have hupd : ∀ (st1 : DBState),
          r' ∈ (runUpdate st1 staffId requestId status).2.room_requests →
          st1.room_requests = st.room_requests → r' ∈ st.room_requests := by
        intro st1 hm he
        unfold runUpdate at hm
        split at hm
        · rw [← he]; exact hm
        · simp only at hm
          rw [he] at hm
          rcases List.mem_map.mp hm with ⟨q, hq, hfq⟩
          by_cases hid : (q._id == requestId) = true
          · rw [if_pos hid] at hfq
            exact absurd (hfq ▸ hpend) (by simp [setStatusRow, hnp])
          · rw [if_neg hid] at hfq
            exact hfq ▸ hq
      split at hmem
      · split at hmem
        · exact hmem
        · split at hmem
          · exact hmem
          · exact hupd st hmem rfl
      · exact hupd st hmem rfl
    · rw [if_pos (by simp [hw])] at hmem
      exact hmem
  · decide

/-- Witness for C8 amended, on a concrete state whose only row is pending. -/
theorem room_requests_never_return_to_pending_witness :
    { _id := 1, member_id := 7, room_id := 1, date := 20240601,
      start_time := 600, end_time := 660, status := ReqStatus.pending,
      staff_id := none, updated_at := 0 : RoomRequest } ∈ demoStA.room_requests :=
  room_requests_never_return_to_pending.1 demoStA 99 5 ReqStatus.rejected _
    (by decide) (by decide)

/-- C6: when approving a pending room request, the conflict query (which runs
against currently-approved rows for the same room and date and excludes the
request itself) returning any row makes the route answer `Conflict detected`
and leave the database state — in particular the request's row and its
`pending` status, `staff_id` and `updated_at` — entirely unchanged. -/
theorem approval_conflict_rejected_state_unchanged (st : DBState)
    (staffId requestId : Nat) (reqData : RoomRequest)
    (hfind : st.room_requests.find? (fun r => r._id == requestId) = some reqData)
    (hpend : reqData.status = ReqStatus.pending)
    (hconf : approveConflictQuery st.room_requests reqData.room_id reqData.date
        reqData.start_time reqData.end_time requestId ≠ []) :
    putRoomRequestStatus st staffId requestId ReqStatus.approved =
      (UpdateResult.conflictError, st) := by
  have hEmpty : (approveConflictQuery st.room_requests reqData.room_id reqData.date
      reqData.start_time reqData.end_time requestId).isEmpty = false := by
    rcases hq : approveConflictQuery st.room_requests reqData.room_id reqData.date
        reqData.start_time reqData.end_time requestId with _ | ⟨a, t⟩
    · exact absurd hq hconf
    · rfl
  simp [putRoomRequestStatus, hfind, hEmpty]

/-- Witness for C6: in the demonstration state where A (id 1, 10:00–11:00) is
approved and B (id 2, 10:30–10:45) is pending, approving B is rejected with
the conflict error and the state is unchanged. -/
theorem approval_conflict_rejected_state_unchanged_witness :
    demoStABapproved.room_requests.find? (fun r => r._id == 2) = some
      { _id := 2, member_id := 8, room_id := 1, date := 20240601,
        start_time := 630, end_time := 645, status := ReqStatus.pending,
        staff_id := none, updated_at := 1 } ∧
    putRoomRequestStatus demoStABapproved 99 2 ReqStatus.approved =
      (UpdateResult.conflictError, demoStABapproved) :=
  ⟨by decide,
    approval_conflict_rejected_state_unchanged demoStABapproved 99 2
      { _id := 2, member_id := 8, room_id := 1, date := 20240601,
        start_time := 630, end_time := 645, status := ReqStatus.pending,
        staff_id := none, updated_at := 1 }
      (by decide) (by decide) (by decide)⟩

/-- C7: when the creation conflict query returns any row, `POST
/api/rooms/request` answers with the `Room is already booked` error and the
state is unchanged — in particular no pending row is inserted (fail closed). -/
theorem creation_conflict_rejected_fail_closed (st : DBState)
    (userId roomId date startTime endTime : Nat)
    (hs : validTime startTime = true) (he : validTime endTime = true)
    (hroom : (st.rooms.filter (fun r => r._id == roomId)).isEmpty = false)
    (hconf : createConflictQuery st.room_requests roomId date startTime endTime ≠ []) :
    postRoomRequest st userId roomId date startTime endTime =
      (CreateResult.conflictError, st) := by
  have hEmpty : (createConflictQuery st.room_requests roomId date startTime
      endTime).isEmpty = false := by
    rcases hq : createConflictQuery st.room_requests roomId date startTime endTime
      with _ | ⟨a, t⟩
    · exact absurd hq hconf
    · rfl
  simp [postRoomRequest, hs, he, hroom, hEmpty]

/-- Witness for C7: with A approved at 10:00–11:00 on room 1, creating the
overlapping 10:30–10:45 request is rejected and the state is unchanged. -/
theorem creation_conflict_rejected_fail_closed_witness :
    createConflictQuery demoStAapproved.room_requests 1 20240601 630 645 ≠ [] ∧
    postRoomRequest demoStAapproved 8 1 20240601 630 645 =
      (CreateResult.conflictError, demoStAapproved) :=
  ⟨by decide,
    creation_conflict_rejected_fail_closed demoStAapproved 8 1 20240601 630 645
      (by decide) (by decide) (by decide) (by decide)⟩

/-- C9 counterexample: a creation call with startTime 11:00 (660) and endTime
10:00 (600) — end before start — is not rejected by the route's validators;
it passes validation, reaches the conflict query, and a pending row with
`end_time < start_time` is inserted. -/
theorem degenerate_interval_not_rejected :
    postRoomRequest demoSt0 7 1 20240601 660 600 =
      (CreateResult.created
        { _id := 1, member_id := 7, room_id := 1, date := 20240601,
          start_time := 660, end_time := 600, status := ReqStatus.pending,
          staff_id := none, updated_at := 0 },
       { rooms := [{ _id := 1, room_name := "Room 1", capacity := 4,
                     location := "L1" }],
         room_requests := [{ _id := 1, member_id := 7, room_id := 1,
                             date := 20240601, start_time := 660, end_time := 600,
                             status := ReqStatus.pending, staff_id := none,
                             updated_at := 0 }],
         next_id := 2, now := 1 }) := by
  decide

/-- C9 amended: the backend route's validators check only the formats of the
fields, never the order of the two times: the creation call returns a
validation error iff one of the times is not a syntactically valid `HH:MM`
value (minute value at least 1440), regardless of whether `end_time` is after
`start_time`.  (Only the frontend forms compare the two times.) -/
theorem creation_validation_is_format_only (st : DBState)
    (userId roomId date startTime endTime : Nat) :
    (postRoomRequest st userId roomId date startTime endTime).1 =
        CreateResult.validationError ↔
      ¬(startTime < 1440 ∧ endTime < 1440) := by
  unfold postRoomRequest
  by_cases hv : (validTime startTime && validTime endTime) = true
  · have hvp : startTime < 1440 ∧ endTime < 1440 := by
      simpa [validTime] using hv
    rw [if_neg (by simp [hv])]
    simp only [hvp, and_self, not_true_eq_false, iff_false]
    split_ifs <;> simp
  · have hvp : ¬(startTime < 1440 ∧ endTime < 1440) := by
      simpa [validTime] using hv
    have hb : (validTime startTime && validTime endTime) = false := by
      revert hv
      cases validTime startTime && validTime endTime <;> simp
    rw [if_pos (by simp [hb])]
    simp [hvp]

/-- Inversion: a successful `runUpdate` produces exactly the state whose
request rows are mapped through the `SET` clause on the matching `_id`. -/
theorem runUpdate_updated_state (st : DBState) (staffId requestId : Nat)
    (status : ReqStatus) (r : RoomRequest) (st' : DBState)
    (h : runUpdate st staffId requestId status = (UpdateResult.updated r, st')) :
    st' = { st with
        room_requests := st.room_requests.map
          (fun q => if q._id == requestId then setStatusRow q status staffId st.now else q),
        now := st.now + 1 } := by
  unfold runUpdate at h
  split at h
  · exact absurd h (by simp)
  · rw [Prod.mk.injEq] at h
    exact h.2.symm

/-- Inversion: a successful `PUT /api/rooms/requests/:id` reduces to a
successful `runUpdate` on the same arguments. -/
theorem putRoomRequestStatus_updated_runUpdate (st : DBState)
    (staffId requestId : Nat) (status : ReqStatus) (r : RoomRequest)
    (st' : DBState)
    (h : putRoomRequestStatus st staffId requestId status =
      (UpdateResult.updated r, st')) :
    runUpdate st staffId requestId status = (UpdateResult.updated r, st') := by
  unfold putRoomRequestStatus at h
  split at h
  · exact absurd h (by simp)
  · split at h
    · split at h
      · exact absurd h (by simp)
      · split at h
        · exact absurd h (by simp)
        · exact h
    · exact h

/-- With pairwise-distinct `_id` values, at most one row matches a given id. -/
theorem nodup_filter_id_length_le_one (l : List RoomRequest) (k : Nat)
    (h : (l.map (fun r => r._id)).Nodup) :
    (l.filter (fun r => r._id == k)).length ≤ 1 := by
  induction l with
  | nil => simp
  | cons a t ih =>
    rw [List.map_cons, List.nodup_cons] at h
    by_cases hk : (a._id == k) = true
    · have hak : a._id = k := by simpa using hk
      have ht : t.filter (fun r => r._id == k) = [] := by
        rw [List.filter_eq_nil_iff]
        intro b hb hbk
        have hbk' : b._id = k := by simpa using hbk
        have hmem : b._id ∈ t.map (fun r => r._id) := List.mem_map_of_mem _ hb
        rw [hbk', ← hak] at hmem
        exact h.1 hmem
      rw [List.filter_cons, if_pos (by simpa using hk), ht]
      simp
    · rw [List.filter_cons, if_neg (by simpa using hk)]
      exact ih h.2

/-- C10: a successful room-request status update leaves the `rooms` table
unchanged, at most one `room_requests` row matches the given id, and the new
request list corresponds row-by-row to the old one: rows with a different
`_id` are literally unchanged, and the matching row keeps its `_id`,
`member_id`, `room_id`, `date`, `start_time` and `end_time`, with only
`status` and `staff_id` set to the given values (besides `updated_at`). -/
theorem update_modifies_only_target_fields (st : DBState)
    (staffId requestId : Nat) (status : ReqStatus) (r : RoomRequest)
    (st' : DBState)
    (h : putRoomRequestStatus st staffId requestId status =
      (UpdateResult.updated r, st'))
    (hnodup : (st.room_requests.map (fun q => q._id)).Nodup) :
    st'.rooms = st.rooms ∧
    (st.room_requests.filter (fun q => q._id == requestId)).length ≤ 1 ∧
    List.Forall₂ (fun q q' =>
        (q._id ≠ requestId → q' = q) ∧
        (q._id = requestId →
          q'.status = status ∧ q'.staff_id = some staffId ∧
          q'._id = q._id ∧ q'.member_id = q.member_id ∧
          q'.room_id = q.room_id ∧ q'.date = q.date ∧
          q'.start_time = q.start_time ∧ q'.end_time = q.end_time))
      st.room_requests st'.room_requests := by
  have hst' := runUpdate_updated_state st staffId requestId status r st'
    (putRoomRequestStatus_updated_runUpdate st staffId requestId status r st' h)
  subst hst'
  refine ⟨rfl, nodup_filter_id_length_le_one st.room_requests requestId hnodup, ?_⟩
  rw [List.forall₂_map_right_iff, List.forall₂_same]
  intro q hq
  constructor
  · intro hne
    rw [if_neg (by simpa using hne)]
  · intro heq
    rw [if_pos (by simpa using heq)]
    simp [setStatusRow]

/-- Witness for C10: rejecting request 1 in the state holding pending
requests 1 and 2 updates only request 1's status, staff and timestamp. -/
theorem update_modifies_only_target_fields_witness :
    putRoomRequestStatus demoStAB 99 1 ReqStatus.rejected =
      (UpdateResult.updated
        { _id := 1, member_id := 7, room_id := 1, date := 20240601,
          start_time := 600, end_time := 660, status := ReqStatus.rejected,
          staff_id := some 99, updated_at := 2 },
       { rooms := [{ _id := 1, room_name := "Room 1", capacity := 4,
                     location := "L1" }],
         room_requests := [
           { _id := 1, member_id := 7, room_id := 1, date := 20240601,
             start_time := 600, end_time := 660, status := ReqStatus.rejected,
             staff_id := some 99, updated_at := 2 },
           { _id := 2, member_id := 8, room_id := 1, date := 20240601,
             start_time := 630, end_time := 645, status := ReqStatus.pending,
             staff_id := none, updated_at := 1 }],
         next_id := 3, now := 3 }) ∧
    ({ rooms := [{ _id := 1, room_name := "Room 1", capacity := 4,
                   location := "L1" }],
       room_requests := [
         { _id := 1, member_id := 7, room_id := 1, date := 20240601,
           start_time := 600, end_time := 660, status := ReqStatus.rejected,
           staff_id := some 99, updated_at := 2 },
         { _id := 2, member_id := 8, room_id := 1, date := 20240601,
           start_time := 630, end_time := 645, status := ReqStatus.pending,
           staff_id := none, updated_at := 1 }],
       next_id := 3, now := 3 : DBState }).rooms = demoStAB.rooms ∧
    (demoStAB.room_requests.filter (fun q => q._id == 1)).length ≤ 1 ∧
    List.Forall₂ (fun q q' =>
        (q._id ≠ 1 → q' = q) ∧
        (q._id = 1 →
          q'.status = ReqStatus.rejected ∧ q'.staff_id = some 99 ∧
          q'._id = q._id ∧ q'.member_id = q.member_id ∧
          q'.room_id = q.room_id ∧ q'.date = q.date ∧
          q'.start_time = q.start_time ∧ q'.end_time = q.end_time))
      demoStAB.room_requests
      ({ rooms := [{ _id := 1, room_name := "Room 1", capacity := 4,
                     location := "L1" }],
         room_requests := [
           { _id := 1, member_id := 7, room_id := 1, date := 20240601,
             start_time := 600, end_time := 660, status := ReqStatus.rejected,
             staff_id := some 99, updated_at := 2 },
           { _id := 2, member_id := 8, room_id := 1, date := 20240601,
             start_time := 630, end_time := 645, status := ReqStatus.pending,
             staff_id := none, updated_at := 1 }],
         next_id := 3, now := 3 : DBState }).room_requests := by
  refine ⟨by decide, ?_⟩
  exact update_modifies_only_target_fields demoStAB 99 1 ReqStatus.rejected
    { _id := 1, member_id := 7, room_id := 1, date := 20240601,
      start_time := 600, end_time := 660, status := ReqStatus.rejected,
      staff_id := some 99, updated_at := 2 }
    { rooms := [{ _id := 1, room_name := "Room 1", capacity := 4,
                  location := "L1" }],
      room_requests := [
        { _id := 1, member_id := 7, room_id := 1, date := 20240601,
          start_time := 600, end_time := 660, status := ReqStatus.rejected,
          staff_id := some 99, updated_at := 2 },
        { _id := 2, member_id := 8, room_id := 1, date := 20240601,
          start_time := 630, end_time := 645, status := ReqStatus.pending,
          staff_id := none, updated_at := 1 }],
      next_id := 3, now := 3 }
    (by decide) (by decide)

/-- Two rows of a table with pairwise-distinct `_id` values that share an
`_id` are the same row. -/
theorem eq_of_id_eq_of_nodup (l : List RoomRequest)
    (h : (l.map (fun r => r._id)).Nodup) (a b : RoomRequest)
    (ha : a ∈ l) (hb : b ∈ l) (hid : a._id = b._id) : a = b :=
  List.inj_on_of_nodup_map h ha hb hid

/-- Request creation preserves well-formedness of ids and the disjointness
invariant: a failed creation leaves the state unchanged and a successful one
appends a `pending` row with a fresh `_id`. -/
theorem postRoomRequest_preserves_inv (st : DBState) (u rm d s e : Nat)
    (hids : IdsOk st) (hdisj : ApprovedDisjoint st.room_requests) :
    IdsOk (postRoomRequest st u rm d s e).2 ∧
      ApprovedDisjoint (postRoomRequest st u rm d s e).2.room_requests := by
  unfold postRoomRequest
  split_ifs with h1 h2 h3
  · exact ⟨hids, hdisj⟩
  · exact ⟨hids, hdisj⟩
  · exact ⟨hids, hdisj⟩
  · dsimp only
    constructor
    · constructor
      · rw [List.map_append, List.nodup_append]
        refine ⟨hids.1, List.nodup_singleton _, ?_⟩
        intro x hx hx'
        rcases List.mem_map.mp hx with ⟨q, hq, rfl⟩
        have hxe : q._id = st.next_id := by simpa using hx'
        exact absurd (hxe ▸ hids.2 q hq) (lt_irrefl _)
      · intro r hr
        rcases List.mem_append.mp hr with hr | hr
        · exact Nat.lt_succ_of_lt (hids.2 r hr)
        · have : r._id = st.next_id := by
            rcases List.mem_singleton.mp hr with rfl
            rfl
          show r._id < st.next_id + 1
          omega
    · intro r1 h1m r2 h2m ha1 ha2 hroom hdate hne
      rcases List.mem_append.mp h1m with h1m | h1m
      · rcases List.mem_append.mp h2m with h2m | h2m
        · exact hdisj r1 h1m r2 h2m ha1 ha2 hroom hdate hne
        · rcases List.mem_singleton.mp h2m with rfl
          exact absurd ha2 (by simp)
      · rcases List.mem_singleton.mp h1m with rfl
        exact absurd ha1 (by simp)

/-- The update statement preserves well-formedness of ids: it rewrites rows in
place without changing any `_id`. -/
theorem runUpdate_preserves_ids (st : DBState) (staffId requestId : Nat)
    (status : ReqStatus) (hids : IdsOk st) :
    IdsOk (runUpdate st staffId requestId status).2 := by
  unfold runUpdate
  split
  · exact hids
  · have hid : ∀ q : RoomRequest,
        (if q._id == requestId then setStatusRow q status staffId st.now else q)._id =
          q._id := by
      intro q
      by_cases hq : q._id = requestId
      · simp [hq, setStatusRow]
      · simp [hq]
    constructor
    · show ((st.room_requests.map
          (fun q => if q._id == requestId then setStatusRow q status staffId st.now else q)).map
            (fun r => r._id)).Nodup
      rw [List.map_map]
      have hmap : st.room_requests.map
          ((fun r : RoomRequest => r._id) ∘
            (fun q => if q._id == requestId then setStatusRow q status staffId st.now else q)) =
          st.room_requests.map (fun r => r._id) :=
        List.map_congr_left fun q _ => hid q
      rw [hmap]
      exact hids.1
    · intro r hr
      rcases List.mem_map.mp hr with ⟨q, hq, rfl⟩
      show (if q._id == requestId then setStatusRow q status staffId st.now else q)._id <
        st.next_id
      rw [hid q]
      exact hids.2 q hq

/-- A status update to a non-`approved` status preserves the disjointness
invariant: it only removes rows from the approved set. -/
theorem runUpdate_not_approved_preserves_disjoint (st : DBState)
    (staffId requestId : Nat) (status : ReqStatus)
    (hstat : status ≠ ReqStatus.approved)
    (hdisj : ApprovedDisjoint st.room_requests) :
    ApprovedDisjoint (runUpdate st staffId requestId status).2.room_requests := by
  unfold runUpdate
  split
  · exact hdisj
  · intro r1 h1m r2 h2m ha1 ha2 hroom hdate hne
    rcases List.mem_map.mp h1m with ⟨q1, hq1, rfl⟩
    rcases List.mem_map.mp h2m with ⟨q2, hq2, rfl⟩
    by_cases e1 : (q1._id == requestId) = true
    · rw [if_pos e1] at ha1
      exact absurd ha1 (by simp [setStatusRow, hstat])
    · by_cases e2 : (q2._id == requestId) = true
      · rw [if_pos e2] at ha2
        exact absurd ha2 (by simp [setStatusRow, hstat])
      · rw [if_neg e1] at ha1 hroom hdate hne ⊢
        rw [if_neg e2] at ha2 hroom hdate hne ⊢
        exact hdisj q1 hq1 q2 hq2 ha1 ha2 hroom hdate hne

/-- A status update to `approved` whose approval-time conflict query (with
self-exclusion) came back empty preserves the disjointness invariant. -/
theorem runUpdate_approved_preserves_disjoint (st : DBState)
    (staffId requestId : Nat) (reqData : RoomRequest)
    (hids : IdsOk st) (hdisj : ApprovedDisjoint st.room_requests)
    (hfind : st.room_requests.find? (fun r => r._id == requestId) = some reqData)
    (hconf : approveConflictQuery st.room_requests reqData.room_id reqData.date
      reqData.start_time reqData.end_time requestId = []) :
    ApprovedDisjoint
      (runUpdate st staffId requestId ReqStatus.approved).2.room_requests := by
  have hreqmem : reqData ∈ st.room_requests := List.mem_of_find?_eq_some hfind
  have hreqid : reqData._id = requestId := by
    have := List.find?_some hfind
    simpa using this
  have hno : ∀ q ∈ st.room_requests, q.room_id = reqData.room_id →
      q.date = reqData.date → q.status = ReqStatus.approved → q._id ≠ requestId →
      overlapClause q.start_time q.end_time reqData.start_time reqData.end_time = false := by
    intro q hq hr hd hs hqid
    unfold approveConflictQuery at hconf
    have hnp := List.filter_eq_nil_iff.mp hconf q hq
    cases hov : overlapClause q.start_time q.end_time reqData.start_time reqData.end_time
    · rfl
    · exact absurd (by simp [hr, hd, hs, hqid, hov]) hnp
  unfold runUpdate
  split
  · exact hdisj
  · intro r1 h1m r2 h2m ha1 ha2 hroom hdate hne
    rcases List.mem_map.mp h1m with ⟨q1, hq1, rfl⟩
    rcases List.mem_map.mp h2m with ⟨q2, hq2, rfl⟩
    by_cases e1 : (q1._id == requestId) = true
    · by_cases e2 : (q2._id == requestId) = true
      · have h12 : q1._id = q2._id := by
          have he1 : q1._id = requestId := by simpa using e1
          have he2 : q2._id = requestId := by simpa using e2
          rw [he1, he2]
        rw [if_pos e1, if_pos e2] at hne
        exact absurd (by simp [setStatusRow, h12]) hne
      · -- q1 is the approved request, q2 an untouched row
        have hq1r : q1 = reqData :=
          eq_of_id_eq_of_nodup st.room_requests hids.1 q1 reqData hq1 hreqmem
            (by rw [hreqid]; simpa using e1)
        rw [if_pos e1] at hroom hdate ⊢
        rw [if_neg e2] at ha2 hroom hdate ⊢
        have hov := hno q2 hq2 (by simpa [setStatusRow, hq1r] using hroom.symm)
          (by simpa [setStatusRow, hq1r] using hdate.symm) ha2 (by simpa using e2)
        have hdis := overlapClause_false_disjoint reqData.start_time reqData.end_time
          q2.start_time q2.end_time hov
        simpa [setStatusRow, hq1r] using hdis
    · by_cases e2 : (q2._id == requestId) = true
      · -- q2 is the approved request, q1 an untouched row
        have hq2r : q2 = reqData :=
          eq_of_id_eq_of_nodup st.room_requests hids.1 q2 reqData hq2 hreqmem
            (by rw [hreqid]; simpa using e2)
        rw [if_neg e1] at ha1 hroom hdate ⊢
        rw [if_pos e2] at hroom hdate ⊢
        have hov := hno q1 hq1 (by simpa [setStatusRow, hq2r] using hroom)
          (by simpa [setStatusRow, hq2r] using hdate) ha1 (by simpa using e1)
        have hdis := overlapClause_false_disjoint reqData.start_time reqData.end_time
          q1.start_time q1.end_time hov
        rw [Set.inter_comm] at hdis
        simpa [setStatusRow, hq2r] using hdis
      · rw [if_neg e1] at ha1 hroom hdate hne ⊢
        rw [if_neg e2] at ha2 hroom hdate hne ⊢
        exact hdisj q1 hq1 q2 hq2 ha1 ha2 hroom hdate hne

/-- A status-update request preserves well-formedness of ids and the
disjointness invariant, whatever status is submitted. -/
theorem putRoomRequestStatus_preserves_inv (st : DBState) (staffId requestId : Nat)
    (status : ReqStatus) (hids : IdsOk st)
    (hdisj : ApprovedDisjoint st.room_requests) :
    IdsOk (putRoomRequestStatus st staffId requestId status).2 ∧
      ApprovedDisjoint
        (putRoomRequestStatus st staffId requestId status).2.room_requests := by
  unfold putRoomRequestStatus
  split
  · exact ⟨hids, hdisj⟩
  · split
    · rename_i happ
      split
      · exact ⟨hids, hdisj⟩
      · rename_i reqData hfind
        split
        · exact ⟨hids, hdisj⟩
        · rename_i hconfb
          have hstat : status = ReqStatus.approved := by simpa using happ
          subst hstat
          have hconf : approveConflictQuery st.room_requests reqData.room_id
              reqData.date reqData.start_time reqData.end_time requestId = [] := by
            rcases hq : approveConflictQuery st.room_requests reqData.room_id
                reqData.date reqData.start_time reqData.end_time requestId with _ | ⟨a, t⟩
            · rfl
            · rw [hq] at hconfb
              simp at hconfb
          exact ⟨runUpdate_preserves_ids st staffId requestId ReqStatus.approved hids,
            runUpdate_approved_preserves_disjoint st staffId requestId reqData hids
              hdisj hfind hconf⟩
    · rename_i hnapp
      have hstat : status ≠ ReqStatus.approved := by simpa using hnapp
      exact ⟨runUpdate_preserves_ids st staffId requestId status hids,
        runUpdate_not_approved_preserves_disjoint st staffId requestId status hstat hdisj⟩

/-- Every single operation preserves well-formedness of ids and the
disjointness invariant. -/
theorem step_preserves_inv (st : DBState) (op : Op) (hids : IdsOk st)
    (hdisj : ApprovedDisjoint st.room_requests) :
    IdsOk (step st op) ∧ ApprovedDisjoint (step st op).room_requests := by
  cases op with
  | create u rm d s e => exact postRoomRequest_preserves_inv st u rm d s e hids hdisj
  | setStatus a i s => exact putRoomRequestStatus_preserves_inv st a i s hids hdisj

/-- Any sequence of operations preserves well-formedness of ids and the
disjointness invariant. -/
theorem run_preserves_inv (ops : List Op) (st : DBState) (hids : IdsOk st)
    (hdisj : ApprovedDisjoint st.room_requests) :
    IdsOk (run st ops) ∧ ApprovedDisjoint (run st ops).room_requests := by
  induction ops generalizing st with
  | nil => exact ⟨hids, hdisj⟩
  | cons op ops ih =>
      have hstep := step_preserves_inv st op hids hdisj
      exact ih (step st op) hstep.1 hstep.2

/-- C1: starting from any well-formed state with no approved requests, after
any sequence of request-creation and status-update (approval, rejection,
cancellation) operations, the approved requests for any room and date have
pairwise disjoint half-open `[start_time, end_time)` intervals. -/
theorem approved_requests_pairwise_disjoint (st : DBState) (ops : List Op)
    (hids : IdsOk st)
    (hno : ∀ r ∈ st.room_requests, r.status ≠ ReqStatus.approved) :
    ApprovedDisjoint (run st ops).room_requests :=
  (run_preserves_inv ops st hids
    (fun r1 h1 _ _ ha1 _ _ _ _ => absurd ha1 (hno r1 h1))).2

/-- Witness for C1: from the empty demonstration state, create A and B,
approve A, then attempt to approve B; the approved intervals stay disjoint. -/
theorem approved_requests_pairwise_disjoint_witness :
    IdsOk demoSt0 ∧ (∀ r ∈ demoSt0.room_requests, r.status ≠ ReqStatus.approved) ∧
      ApprovedDisjoint (run demoSt0
        [Op.create 7 1 20240601 600 660, Op.create 8 1 20240601 630 645,
         Op.setStatus 99 1 ReqStatus.approved,
         Op.setStatus 99 2 ReqStatus.approved]).room_requests :=
  ⟨⟨by decide, by decide⟩, by decide,
    approved_requests_pairwise_disjoint demoSt0
      [Op.create 7 1 20240601 600 660, Op.create 8 1 20240601 630 645,
       Op.setStatus 99 1 ReqStatus.approved,
       Op.setStatus 99 2 ReqStatus.approved]
      ⟨by decide, by decide⟩ (by decide)⟩

end Booking
